import Mathlib

/-!
# Makersbnb — verification of the route and domain layer

A shallow embedding of the Makersbnb repository: the Express route handlers
of `app.js` (and the welcome-message revision of the `GET /` handler), the
persisted document shapes, and the `Advert`/`List` objects of the
client-side prototype, together with theorems settling the claims of the
specification.

Form fields and document fields follow JavaScript semantics: a field is an
`Option String`, `none` standing for `undefined` (a missing field), and
truthiness of a field is "present and non-empty".
-/

namespace MakersBnB

/-- JavaScript truthiness of a form/session value: `undefined` and the empty
string are falsy, every other string is truthy. -/
def jsTruthy : Option String → Bool
  | none => false
  | some s => s != ""

/-- A persisted `users` document as written by `POST /users/new` in
`app.js`: the handler stores `username`, `email` and `password` (each taken
verbatim from the request body, hence possibly `undefined`) and never writes
a `name` key. `id` is the store-assigned identifier (an ObjectId, modelled
as a natural number). -/
structure User where
  id : Nat
  name : Option String := none
  username : Option String := none
  email : Option String := none
  password : Option String := none
deriving Repr, DecidableEq

/-- A persisted `adverts` document. The store is schemaless: across
revisions the route layer writes `userID`, `name`, `description`, `price`
and `booked`, so every string field is optional. `id` is the
store-assigned identifier. -/
structure AdvertDoc where
  id : Nat
  userID : Option String := none
  name : Option String := none
  description : Option String := none
  price : Option String := none
  booked : Bool := false
deriving Repr, DecidableEq

/-- The `makersBnB` database: the `users` and `adverts` collections plus the
next store-assigned identifier. -/
structure DB where
  users : List User := []
  adverts : List AdvertDoc := []
  nextId : Nat := 0
deriving Repr, DecidableEq

/-- The server-side session attached to a browser session: `email`,
`username` and `password`, each possibly unset. -/
structure Session where
  email : Option String := none
  username : Option String := none
  password : Option String := none
deriving Repr, DecidableEq

/-- The observable outcome of a route handler: a redirect to a path, the
rendered `index` template (with its adverts data, possibly `undefined` after
a failed read, and an optional welcome message), or another rendered
template. -/
inductive Response where
  | redirect (path : String)
  | renderIndex (adverts : Option (List AdvertDoc)) (welcomeMessage : Option String)
  | renderView (template : String)
deriving Repr, DecidableEq

/-- Model of `ObjectId.toHexString` on the numeric identifier: its base-16
digit string. -/
def toHexString (n : Nat) : String := String.mk (Nat.toDigits 16 n)

/-- The routes registered by `app.js`: method and path of every `app.get` /
`app.post` call in the file. -/
def registeredRoutes : List (String × String) :=
  [("GET", "/"),
   ("GET", "/users/new"), ("POST", "/users/new"),
   ("GET", "/sessions/new"), ("POST", "/sessions/new"),
   ("POST", "/book"),
   ("POST", "/new-advert")]

/-- Handler for `POST /sessions/new` (`app.js` lines 122–139): unconditionally
copies the submitted `email` and `password` into the session, then branches
on their truthiness — `/` when both are truthy, `/session/new` when only the
email is, `/user/new` otherwise. No database access occurs in this handler
(the lookup exists only as a comment in the source). -/
def sessionsNewPost (sess : Session) (email password : Option String) :
    Session × Response :=
  let sess' := { sess with email := email, password := password }
  if jsTruthy sess'.email then
    if jsTruthy sess'.password then (sess', .redirect "/")
    else (sess', .redirect "/session/new")
  else (sess', .redirect "/user/new")

/-- Handler for `POST /users/new` (`app.js` lines 72–116). The session
email and username are set from the form before anything else; when the
(now session) email is truthy a `{username, email, password}` document is
inserted and the handler redirects to `/`, otherwise it redirects to
`/user/new`. `insertErr` is the error argument delivered to the
`db.users.insert` callback: when present the document is not stored and the
error is logged; the redirect is issued outside the callback either way.
The two `findOne` duplicate checks in the source only log and change
nothing. The returned list is the error log of the handler. -/
def usersNewPost (db : DB) (sess : Session)
    (name username email password passwordConfirmation : Option String)
    (insertErr : Option String) :
    List String × DB × Session × Response :=
  let sess' := { sess with email := email, username := username }
  if jsTruthy sess'.email then
    let newUser : User := { id := db.nextId, name := none,
                            username := username, email := email,
                            password := password }
    match insertErr with
    | some e => ([e], db, sess', .redirect "/")
    | none =>
        ([], { db with users := db.users ++ [newUser], nextId := db.nextId + 1 },
         sess', .redirect "/")
  else ([], db, sess', .redirect "/user/new")

/-- Handler for `POST /new-advert` (`app.js` lines 148–175): finds the user by
the session email; a missing user makes the JavaScript dereference `null`
(`user._id.toHexString()`), so the handler fails — modelled as
`Except.error`. When found, a `{userID: hex id, name, booked: false}`
document is inserted and the handler redirects to `/`. `insertErr` is the
error argument of the `db.adverts.insert` callback: logged, the document is
not stored, and the redirect inside the callback is issued regardless. -/
def newAdvertPost (db : DB) (sess : Session) (advertName : Option String)
    (insertErr : Option String) :
    Except String (List String × DB × Response) :=
  match db.users.find? (fun u => u.email == sess.email) with
  | none => .error "TypeError: cannot read property _id of null"
  | some user =>
      let newAd : AdvertDoc := { id := db.nextId,
                                 userID := some (toHexString user.id),
                                 name := advertName, booked := false }
      match insertErr with
      | some e => .ok ([e], db, .redirect "/")
      | none =>
          .ok ([], { db with adverts := db.adverts ++ [newAd],
                             nextId := db.nextId + 1 },
               .redirect "/")

/-- Mongo `update` with an `_id` filter and `$set {booked: true}` and no
`multi` flag: the first document whose id matches has `booked` set to
`true`; everything else is untouched. -/
def setBookedFirst (target : Nat) : List AdvertDoc → List AdvertDoc
  | [] => []
  | a :: rest =>
      if a.id = target then { a with booked := true } :: rest
      else a :: setBookedFirst target rest

/-- Handler for `POST /book` (`app.js` lines 142–146): issues the update and
redirects to `/`. The update call carries no callback, so `updateErr` — the
error the store would report — is never logged (the log is empty in every
case); when it is present the write is lost. -/
def bookPost (db : DB) (target : Nat) (updateErr : Option String) :
    List String × DB × Response :=
  match updateErr with
  | some _ => ([], db, .redirect "/")
  | none => ([], { db with adverts := setBookedFirst target db.adverts },
             .redirect "/")

/-- Handler for `GET /` (`app.js` lines 47–65): `findResult` is the `(err, docs)`
pair delivered to the `db.adverts.find` callback. The error, if any, is
logged and the `index` template renders regardless — with `adverts`
undefined on error. (The debug `users.find` query and the `console.log` of
the docs only log and are not part of the error-log channel.) -/
def homeGetApp (findResult : Except String (List AdvertDoc)) :
    List String × Response :=
  match findResult with
  | .error e => ([e], .renderIndex none none)
  | .ok docs => ([], .renderIndex (some docs) none)

/-- Handler for `GET /` in the welcome-message revision
(`src/unnamed/part_005` lines 30–48): overwrites the session email with the
literal `"james"`, computes the welcome string from the session email, reads
all adverts and renders the index with both. -/
def homeGetWM (db : DB) (sess : Session) : Session × Response :=
  let sess' := { sess with email := some "james" }
  let message :=
    "Welcome" ++ (if jsTruthy sess'.email then ", " ++ sess'.email.getD ""
                  else ", please log in.")
  (sess', .renderIndex (some db.adverts) (some message))

/-- The client-side prototype `Advert` (`src/app/js/advert.js`): a name set
at construction and a booked flag initialised to `false`. -/
structure CAdvert where
  _name : String
  _isBooked : Bool
deriving Repr, DecidableEq

/-- The `Advert` constructor: stores the name, booked state starts false. -/
def CAdvert.new (name : String) : CAdvert := ⟨name, false⟩

/-- Accessor `Advert.prototype.name`. -/
def CAdvert.name (a : CAdvert) : String := a._name

/-- Accessor `Advert.prototype.isBooked`. -/
def CAdvert.isBooked (a : CAdvert) : Bool := a._isBooked

/-- Operation `Advert.prototype.book`: unconditionally sets the booked flag. -/
def CAdvert.book (a : CAdvert) : CAdvert := { a with _isBooked := true }

/-- Modelled from the spec: the implementation file of the client-side
`List` collection is absent from the sources (only its unit spec and its
callers in `interface.js` survive). Per the spec it is constructed empty,
`add` appends to the end without validation, and `adverts()` returns the
current sequence snapshot in insertion order. -/
structure CList where
  items : List CAdvert := []
deriving Repr, DecidableEq

/-- Modelled from the spec: `new List()` — the empty collection. -/
def CList.new : CList := ⟨[]⟩

/-- Modelled from the spec: `List.prototype.add` appends to the end. -/
def CList.add (l : CList) (a : CAdvert) : CList := ⟨l.items ++ [a]⟩

/-- Modelled from the spec: `List.prototype.adverts` — the snapshot. -/
def CList.adverts (l : CList) : List CAdvert := l.items

/-- The `.bookAdvert` click handler of the legacy prototype
(`src/src/interface.js` lines 28–31): `list.adverts()[0].book()`. Indexing
an empty sequence yields `undefined` and the method call on it throws —
modelled as `Except.error`; otherwise the first advert is booked in place. -/
def bookAdvertClick (l : CList) : Except String CList :=
  match l.adverts with
  | [] => .error "TypeError: cannot read property book of undefined"
  | a :: rest => .ok ⟨a.book :: rest⟩

/-! ## Helper lemmas about the booking update -/

theorem setBookedFirst_length (t : Nat) (l : List AdvertDoc) :
    (setBookedFirst t l).length = l.length := by
  induction l with
  | nil => rfl
  | cons a rest ih =>
      unfold setBookedFirst
      split <;> simp [ih]

theorem mem_setBookedFirst_of_ne (t : Nat) {l : List AdvertDoc}
    {a : AdvertDoc} (ha : a ∈ l) (hne : a.id ≠ t) :
    a ∈ setBookedFirst t l := by
  induction l with
  | nil => cases ha
  | cons b rest ih =>
      unfold setBookedFirst
      rcases List.mem_cons.mp ha with h | h
      · subst h
        rw [if_neg hne]
        exact List.mem_cons_self _ _
      · split
        · exact List.mem_cons_of_mem _ h
        · exact List.mem_cons_of_mem _ (ih h)

theorem find?_setBookedFirst (t : Nat) {l : List AdvertDoc} {a : AdvertDoc}
    (h : l.find? (fun x => x.id == t) = some a) :
    (setBookedFirst t l).find? (fun x => x.id == t)
      = some { a with booked := true } := by
  induction l with
  | nil => simp at h
  | cons b rest ih =>
      unfold setBookedFirst
      by_cases hb : b.id = t
      · rw [List.find?_cons_of_pos _ (by simp [hb])] at h
        cases h
        rw [if_pos hb]
        exact List.find?_cons_of_pos _ (by simp [hb])
      · rw [List.find?_cons_of_neg _ (by simp [hb])] at h
        rw [if_neg hb]
        rw [List.find?_cons_of_neg _ (by simp [hb])]
        exact ih h

theorem mem_setBookedFirst (t : Nat) {l : List AdvertDoc} {a' : AdvertDoc}
    (h : a' ∈ setBookedFirst t l) :
    a' ∈ l ∨ ∃ a, a ∈ l ∧ a.id = t ∧ a' = { a with booked := true } := by
  induction l with
  | nil => cases h
  | cons b rest ih =>
      unfold setBookedFirst at h
      by_cases hb : b.id = t
      · rw [if_pos hb] at h
        rcases List.mem_cons.mp h with h | h
        · exact Or.inr ⟨b, List.mem_cons_self _ _, hb, h⟩
        · exact Or.inl (List.mem_cons_of_mem _ h)
      · rw [if_neg hb] at h
        rcases List.mem_cons.mp h with h | h
        · exact Or.inl (h ▸ List.mem_cons_self _ _)
        · rcases ih h with h' | ⟨a, ha, hat, haa⟩
          · exact Or.inl (List.mem_cons_of_mem _ h')
          · exact Or.inr ⟨a, List.mem_cons_of_mem _ ha, hat, haa⟩

/-! ## The claims -/

/-- C7: a freshly constructed client-side Advert reports `isBooked = false`
and its constructed name; after one `book` it reports booked; and `book` is
idempotent — booking again leaves the whole observable state unchanged. -/
theorem clientAdvert_book_spec (name : String) :
    (CAdvert.new name).isBooked = false
    ∧ (CAdvert.new name).name = name
    ∧ ((CAdvert.new name).book).isBooked = true
    ∧ ((CAdvert.new name).book).book = (CAdvert.new name).book :=
  ⟨rfl, rfl, rfl, rfl⟩

/-- C8: the book control of the legacy prototype books the first advert of
the List when it is non-empty (leaving the rest unchanged); on an empty
List the handler is unguarded — indexing yields no advert and the call
fails. -/
theorem bookAdvertClick_spec (l : CList) :
    (∀ a rest, l.adverts = a :: rest →
        bookAdvertClick l = .ok ⟨a.book :: rest⟩)
    ∧ (l.adverts = [] →
        bookAdvertClick l
          = .error "TypeError: cannot read property book of undefined") := by
  constructor
  · intro a rest h
    unfold bookAdvertClick
    rw [h]
  · intro h
    unfold bookAdvertClick
    rw [h]

/-- Witness for C8 at concrete lists of length one and zero. -/
theorem bookAdvertClick_spec_witness :
    bookAdvertClick ⟨[CAdvert.new "Cosy flat"]⟩
      = .ok ⟨[(CAdvert.new "Cosy flat").book]⟩
    ∧ bookAdvertClick ⟨[]⟩
      = .error "TypeError: cannot read property book of undefined" :=
  ⟨(bookAdvertClick_spec ⟨[CAdvert.new "Cosy flat"]⟩).1
      (CAdvert.new "Cosy flat") [] rfl,
   (bookAdvertClick_spec ⟨[]⟩).2 rfl⟩

/-- C1 counterexample: with an empty users collection and truthy submitted
credentials, the handler redirects to `/` even though no user with the
submitted email exists — it does not redirect to the signup route, because
it performs no lookup at all. -/
theorem sessionsNewPost_counterexample :
    ((⟨[], [], 0⟩ : DB).users.find? (fun u => u.email == some "a@a") = none)
    ∧ (sessionsNewPost ⟨none, none, none⟩ (some "a@a") (some "pw")).2
        = Response.redirect "/"
    ∧ Response.redirect "/" ≠ Response.redirect "/users/new"
    ∧ Response.redirect "/" ≠ Response.redirect "/user/new" := by
  refine ⟨rfl, rfl, by decide, by decide⟩

/-- C1 (amended): the login handler performs no user lookup; it
unconditionally stores the submitted email and password in the session and
branches only on their truthiness — both truthy gives a redirect to `/`,
truthy email with falsy password a redirect to `/session/new`, and falsy
email a redirect to `/user/new`. -/
theorem sessionsNewPost_spec (sess : Session) (email password : Option String) :
    ((sessionsNewPost sess email password).1.email = email
      ∧ (sessionsNewPost sess email password).1.password = password)
    ∧ (jsTruthy email = true → jsTruthy password = true →
        (sessionsNewPost sess email password).2 = .redirect "/")
    ∧ (jsTruthy email = true → jsTruthy password = false →
        (sessionsNewPost sess email password).2 = .redirect "/session/new")
    ∧ (jsTruthy email = false →
        (sessionsNewPost sess email password).2 = .redirect "/user/new") := by
  unfold sessionsNewPost
  cases he : jsTruthy email <;> cases hp : jsTruthy password <;>
    simp [he, hp]

/-- Witness for C1 (amended) at concrete submitted values exercising all
three branches. -/
theorem sessionsNewPost_spec_witness :
    (sessionsNewPost ⟨none, none, none⟩ (some "a@a") (some "pw")).2
      = Response.redirect "/"
    ∧ (sessionsNewPost ⟨none, none, none⟩ (some "a@a") none).2
      = Response.redirect "/session/new"
    ∧ (sessionsNewPost ⟨none, none, none⟩ none (some "pw")).2
      = Response.redirect "/user/new" :=
  ⟨(sessionsNewPost_spec ⟨none, none, none⟩ (some "a@a") (some "pw")).2.1
      (by decide) (by decide),
   (sessionsNewPost_spec ⟨none, none, none⟩ (some "a@a") none).2.2.1
      (by decide) (by decide),
   (sessionsNewPost_spec ⟨none, none, none⟩ none (some "pw")).2.2.2
      (by decide)⟩

/-- C2 counterexample: submitting name "Al" with password "p" and
confirmation "q" — a mismatch — still inserts a user document and redirects
to `/`, and the stored document carries no name field. -/
theorem usersNewPost_counterexample :
    ((some "p" : Option String) ≠ some "q")
    ∧ (usersNewPost ⟨[], [], 0⟩ ⟨none, none, none⟩
        (some "Al") (some "al1") (some "a@a") (some "p") (some "q") none).2.1.users
      = [{ id := 0, name := none, username := some "al1",
           email := some "a@a", password := some "p" }]
    ∧ (usersNewPost ⟨[], [], 0⟩ ⟨none, none, none⟩
        (some "Al") (some "al1") (some "a@a") (some "p") (some "q") none).2.1.users.map
          User.name = [none]
    ∧ (usersNewPost ⟨[], [], 0⟩ ⟨none, none, none⟩
        (some "Al") (some "al1") (some "a@a") (some "p") (some "q") none).2.2.2
      = Response.redirect "/" := by
  refine ⟨by decide, rfl, rfl, rfl⟩

/-- C2 (amended): the signup handler never compares the password with its
confirmation; it validates only that the submitted email is truthy. On
success it inserts exactly one user document carrying the submitted
username, email and password but no name, sets the session email and
username to the submitted values, and redirects to `/`; the whole outcome
is independent of the confirmation field. -/
theorem usersNewPost_spec (db : DB) (sess : Session)
    (name username email password passwordConfirmation : Option String)
    (h : jsTruthy email = true) :
    ((usersNewPost db sess name username email password passwordConfirmation
        none).2.1.users
      = db.users ++ [{ id := db.nextId, name := none, username := username,
                       email := email, password := password }])
    ∧ (usersNewPost db sess name username email password passwordConfirmation
        none).2.2.1.email = email
    ∧ (usersNewPost db sess name username email password passwordConfirmation
        none).2.2.1.username = username
    ∧ (usersNewPost db sess name username email password passwordConfirmation
        none).2.2.2 = Response.redirect "/"
    ∧ (∀ pc, usersNewPost db sess name username email password pc none
          = usersNewPost db sess name username email password
              passwordConfirmation none) := by
  unfold usersNewPost
  simp [h]

/-- Witness for C2 (amended) at a concrete signup request. -/
theorem usersNewPost_spec_witness :
    (usersNewPost ⟨[], [], 0⟩ ⟨none, none, none⟩
        (some "Ann") (some "ann1") (some "ann@a") (some "p") (some "p")
        none).2.1.users
      = [{ id := 0, name := none, username := some "ann1",
           email := some "ann@a", password := some "p" }] :=
  (usersNewPost_spec ⟨[], [], 0⟩ ⟨none, none, none⟩
      (some "Ann") (some "ann1") (some "ann@a") (some "p") (some "p")
      (by decide)).1

/-- C3: when the session email resolves to a stored user, the new-advert
handler inserts exactly one advert document — booked `false`, its userID the
hex string of the store-assigned identifier of that user, its name the
submitted advert name — and redirects to `/`. -/
theorem newAdvertPost_spec (db : DB) (sess : Session)
    (advertName : Option String) (u : User)
    (h : db.users.find? (fun x => x.email == sess.email) = some u) :
    newAdvertPost db sess advertName none =
      .ok ([],
           { db with
               adverts := db.adverts ++
                 [{ id := db.nextId, userID := some (toHexString u.id),
                    name := advertName, booked := false }],
               nextId := db.nextId + 1 },
           .redirect "/") := by
  unfold newAdvertPost
  rw [h]

/-- Witness for C3 at a store holding one matching user. -/
theorem newAdvertPost_spec_witness :
    newAdvertPost
        ⟨[{ id := 0, name := none, username := some "al1",
            email := some "a@a", password := some "p" }], [], 1⟩
        ⟨some "a@a", none, none⟩ (some "buckingham") none
      = .ok ([],
             ⟨[{ id := 0, name := none, username := some "al1",
                 email := some "a@a", password := some "p" }],
              [{ id := 1, userID := some (toHexString 0),
                 name := some "buckingham", description := none,
                 price := none, booked := false }], 2⟩,
             .redirect "/") :=
  newAdvertPost_spec
    ⟨[{ id := 0, name := none, username := some "al1",
        email := some "a@a", password := some "p" }], [], 1⟩
    ⟨some "a@a", none, none⟩ (some "buckingham")
    { id := 0, name := none, username := some "al1",
      email := some "a@a", password := some "p" }
    (by decide)

/-- C4: the booking route (success path) flips the booked flag of the
targeted advert to `true` — keeping its every other field — and changes
nothing else: adverts with a different id are untouched, the users
collection and id counter are unchanged, no advert is deleted (the
collection keeps its length, and every resulting advert is an original one
or an original with only its booked flag set), and the response is a
redirect to `/`. -/
theorem bookPost_frame (db : DB) (target : Nat) :
    ((bookPost db target none).2.2 = Response.redirect "/")
    ∧ (bookPost db target none).2.1.users = db.users
    ∧ (bookPost db target none).2.1.nextId = db.nextId
    ∧ (bookPost db target none).2.1.adverts.length = db.adverts.length
    ∧ (∀ a ∈ db.adverts, a.id ≠ target →
        a ∈ (bookPost db target none).2.1.adverts)
    ∧ (∀ a, db.adverts.find? (fun x => x.id == target) = some a →
        (bookPost db target none).2.1.adverts.find? (fun x => x.id == target)
          = some { a with booked := true })
    ∧ (∀ a' ∈ (bookPost db target none).2.1.adverts,
        a' ∈ db.adverts
          ∨ ∃ a, a ∈ db.adverts ∧ a.id = target
              ∧ a' = { a with booked := true }) := by
  refine ⟨rfl, rfl, rfl, setBookedFirst_length target db.adverts,
          ?_, ?_, ?_⟩
  · intro a ha hne
    exact mem_setBookedFirst_of_ne target ha hne
  · intro a h
    exact find?_setBookedFirst target h
  · intro a' ha'
    exact mem_setBookedFirst target ha'

/-- Witness for C4: booking advert 5 in a two-advert store sets its booked
flag, leaves the other advert present, and redirects to `/`. -/
theorem bookPost_frame_witness :
    ((bookPost ⟨[], [⟨5, none, some "flat", none, none, false⟩,
                     ⟨6, none, some "barn", none, none, false⟩], 7⟩ 5
        none).2.1.adverts.find? (fun x => x.id == 5)
      = some ⟨5, none, some "flat", none, none, true⟩)
    ∧ (⟨6, none, some "barn", none, none, false⟩ : AdvertDoc)
        ∈ (bookPost ⟨[], [⟨5, none, some "flat", none, none, false⟩,
                          ⟨6, none, some "barn", none, none, false⟩], 7⟩ 5
            none).2.1.adverts :=
  ⟨(bookPost_frame ⟨[], [⟨5, none, some "flat", none, none, false⟩,
                         ⟨6, none, some "barn", none, none, false⟩], 7⟩
        5).2.2.2.2.2.1 ⟨5, none, some "flat", none, none, false⟩ (by decide),
   (bookPost_frame ⟨[], [⟨5, none, some "flat", none, none, false⟩,
                         ⟨6, none, some "barn", none, none, false⟩], 7⟩
        5).2.2.2.2.1 ⟨6, none, some "barn", none, none, false⟩ (by decide)
        (by decide)⟩

/-- C5: the welcome-message revision of the home handler overwrites the
session email with the literal "james" before computing the welcome string,
so a request with no session email is answered with the personalized
"Welcome, james" — never the generic log-in prompt the spec describes; the
generic branch is unreachable since every resulting session carries
email "james". The adverts read is faithful: the rendered data is the whole
adverts collection. -/
theorem homeGetWM_hardcoded :
    (homeGetWM ⟨[], [], 0⟩ ⟨none, none, none⟩).2
      = Response.renderIndex (some []) (some "Welcome, james")
    ∧ "Welcome, james" ≠ "Welcome, please log in."
    ∧ (∀ db sess, (homeGetWM db sess).1.email = some "james"
        ∧ (homeGetWM db sess).2
            = Response.renderIndex (some db.adverts) (some "Welcome, james")) := by
  refine ⟨rfl, by decide, fun db sess => ⟨rfl, rfl⟩⟩

/-- C6 counterexample: a failing advert update in the booking route
produces an empty log — the `adverts.update` call carries no callback, so
the reported error is not logged, contrary to the claim that every
persistence error on these routes is logged. -/
theorem bookPost_error_unlogged :
    (bookPost ⟨[], [⟨5, none, some "flat", none, none, false⟩], 6⟩ 5
        (some "connection lost")).1 = []
    ∧ "connection lost"
        ∉ (bookPost ⟨[], [⟨5, none, some "flat", none, none, false⟩], 6⟩ 5
            (some "connection lost")).1 := by
  exact ⟨rfl, by decide⟩

/-- C6 (amended): for the home-page read, the user insert and the advert
insert, a reported persistence error is logged and the request completes
with the same redirect or rendered template as on success; for the advert
update the request likewise completes with the same redirect, but the error
is not logged at all (the update carries no callback). In no case does the
error appear in the response. -/
theorem dbErrors_swallowed (db : DB) (sess : Session)
    (name username email password pc advertName : Option String)
    (e : String) (docs : List AdvertDoc) (target : Nat) (u : User)
    (hmail : jsTruthy email = true)
    (hfind : db.users.find? (fun x => x.email == sess.email) = some u) :
    ((usersNewPost db sess name username email password pc (some e)).1 = [e]
      ∧ (usersNewPost db sess name username email password pc (some e)).2.2.2
          = (usersNewPost db sess name username email password pc none).2.2.2)
    ∧ (newAdvertPost db sess advertName (some e)
          = .ok ([e], db, .redirect "/")
        ∧ ∃ db2, newAdvertPost db sess advertName none
            = .ok ([], db2, .redirect "/"))
    ∧ ((homeGetApp (.error e)).1 = [e]
        ∧ (∃ adverts, (homeGetApp (.error e)).2
            = Response.renderIndex adverts none)
        ∧ (homeGetApp (.ok docs)).2 = Response.renderIndex (some docs) none)
    ∧ ((bookPost db target (some e)).2.2 = (bookPost db target none).2.2
        ∧ (bookPost db target (some e)).1 = []) := by
  refine ⟨?_, ?_, ⟨rfl, ⟨none, rfl⟩, rfl⟩, rfl, rfl⟩
  · unfold usersNewPost
    simp [hmail]
  · unfold newAdvertPost
    rw [hfind]
    exact ⟨rfl, _, rfl⟩

/-- Witness for C6 (amended) at a concrete store, session and error. -/
theorem dbErrors_swallowed_witness :
    (usersNewPost ⟨[⟨0, none, some "al1", some "a@a", some "p"⟩], [], 1⟩
        ⟨some "a@a", none, none⟩ (some "Ann") (some "ann1") (some "ann@a")
        (some "q") (some "q") (some "boom")).1 = ["boom"]
    ∧ newAdvertPost ⟨[⟨0, none, some "al1", some "a@a", some "p"⟩], [], 1⟩
        ⟨some "a@a", none, none⟩ (some "flat") (some "boom")
      = .ok (["boom"],
             ⟨[⟨0, none, some "al1", some "a@a", some "p"⟩], [], 1⟩,
             .redirect "/") :=
  ⟨(dbErrors_swallowed ⟨[⟨0, none, some "al1", some "a@a", some "p"⟩], [], 1⟩
      ⟨some "a@a", none, none⟩ (some "Ann") (some "ann1") (some "ann@a")
      (some "q") (some "q") (some "flat") "boom" [] 5
      ⟨0, none, some "al1", some "a@a", some "p"⟩
      (by decide) (by decide)).1.1,
   (dbErrors_swallowed ⟨[⟨0, none, some "al1", some "a@a", some "p"⟩], [], 1⟩
      ⟨some "a@a", none, none⟩ (some "Ann") (some "ann1") (some "ann@a")
      (some "q") (some "q") (some "flat") "boom" [] 5
      ⟨0, none, some "al1", some "a@a", some "p"⟩
      (by decide) (by decide)).2.1.1⟩

/-- C9: the login handler stores the submitted email and password in the
session in every branch — including the attempts that end in a redirect
back to the login or signup form — and a truthy submitted email leaves the
session email truthy, which is the sole logged-in signal. -/
theorem sessionsNewPost_always_stores (sess : Session)
    (email password : Option String) :
    (sessionsNewPost sess email password).1.email = email
    ∧ (sessionsNewPost sess email password).1.password = password
    ∧ (((sessionsNewPost sess email password).2
          = Response.redirect "/session/new"
        ∨ (sessionsNewPost sess email password).2
          = Response.redirect "/user/new") →
        (sessionsNewPost sess email password).1.email = email
        ∧ (sessionsNewPost sess email password).1.password = password)
    ∧ (jsTruthy email = true →
        jsTruthy (sessionsNewPost sess email password).1.email = true) := by
  unfold sessionsNewPost
  cases he : jsTruthy email <;> cases hp : jsTruthy password <;>
    simp [he, hp]

/-- Witness for C9: a failed login (missing password) still leaves the
submitted email in the session, truthy. -/
theorem sessionsNewPost_always_stores_witness :
    (sessionsNewPost ⟨none, none, none⟩ (some "eve@x") none).1.email
      = some "eve@x"
    ∧ jsTruthy (sessionsNewPost ⟨none, none, none⟩ (some "eve@x")
        none).1.email = true :=
  ⟨(sessionsNewPost_always_stores ⟨none, none, none⟩ (some "eve@x") none).1,
   (sessionsNewPost_always_stores ⟨none, none, none⟩ (some "eve@x")
      none).2.2.2 (by decide)⟩

/-- C10: the failure branches redirect to `/user/new` and `/session/new`,
paths for which no route is registered — a signup with a falsy email
redirects to `/user/new`; a login with a falsy password redirects to
`/session/new` or `/user/new`; neither path occurs among the registered
routes, while `/users/new` and `/sessions/new` do. -/
theorem failureRedirects_unregistered (db : DB) (sess lsess : Session)
    (name username email password pc ie lemail lpassword : Option String)
    (hse : jsTruthy email = false) (hlp : jsTruthy lpassword = false) :
    ((usersNewPost db sess name username email password pc ie).2.2.2
        = Response.redirect "/user/new")
    ∧ ((sessionsNewPost lsess lemail lpassword).2
          = Response.redirect "/session/new"
        ∨ (sessionsNewPost lsess lemail lpassword).2
          = Response.redirect "/user/new")
    ∧ (∀ r ∈ registeredRoutes, r.2 ≠ "/user/new" ∧ r.2 ≠ "/session/new")
    ∧ ("GET", "/users/new") ∈ registeredRoutes
    ∧ ("POST", "/users/new") ∈ registeredRoutes
    ∧ ("GET", "/sessions/new") ∈ registeredRoutes
    ∧ ("POST", "/sessions/new") ∈ registeredRoutes := by
  refine ⟨?_, ?_, by decide, by decide, by decide, by decide, by decide⟩
  · unfold usersNewPost
    simp [hse]
  · unfold sessionsNewPost
    cases he : jsTruthy lemail <;> simp [he, hlp]

/-- Witness for C10: a signup with a missing email and a login with an
empty-string password both redirect to the unregistered singular paths. -/
theorem failureRedirects_unregistered_witness :
    (usersNewPost ⟨[], [], 0⟩ ⟨none, none, none⟩
        (some "Ann") (some "ann1") none (some "p") (some "p") none).2.2.2
      = Response.redirect "/user/new"
    ∧ ((sessionsNewPost ⟨none, none, none⟩ (some "a@a") (some "")).2
          = Response.redirect "/session/new"
        ∨ (sessionsNewPost ⟨none, none, none⟩ (some "a@a") (some "")).2
          = Response.redirect "/user/new") :=
  ⟨(failureRedirects_unregistered ⟨[], [], 0⟩ ⟨none, none, none⟩
      ⟨none, none, none⟩ (some "Ann") (some "ann1") none (some "p")
      (some "p") none (some "a@a") (some "") (by decide) (by decide)).1,
   (failureRedirects_unregistered ⟨[], [], 0⟩ ⟨none, none, none⟩
      ⟨none, none, none⟩ (some "Ann") (some "ann1") none (some "p")
      (some "p") none (some "a@a") (some "") (by decide) (by decide)).2.1⟩

end MakersBnB
